import Mathlib

/-!
Verification of the CropAI pest risk engine (pest_risk.py).

Conventions of the embedding:
* Python floats are modelled as exact rationals; all thresholds and weights
  in the source are short decimal literals, which are exact in this model.
* The timestamp field of WeatherData is not modelled: no decision logic in
  the source reads it.
* Python dictionaries keyed by the five pest categories are modelled as
  functions out of the finite inductive type PestCategory, together with the
  list pestOrder giving the insertion order of the `risks` dict in
  _calculate_individual_pest_risks (used by iteration and the stable sort).
* Numeric-to-string rendering inside narrative strings abbreviates the
  fixed-point formatting of the Python f-strings; the branch structure of all
  narrative templates is reproduced faithfully, and no claim depends on the
  rendering of a number inside a narrative string.
-/

namespace CropAI

/-- WeatherData from pest_risk.py: temperature in Celsius, humidity in
percent, rainfall in mm (timestamp omitted, unused by the logic). -/
structure WeatherData where
  temperature : ℚ
  humidity : ℚ
  rainfall : ℚ
deriving Repr, DecidableEq

/-- The five pest categories, in the insertion order of the `risks`
dictionary of _calculate_individual_pest_risks (which coincides with the
order of the risk_thresholds table). -/
inductive PestCategory where
  | aphids
  | fungal_diseases
  | spider_mites
  | thrips
  | whiteflies
deriving Repr, DecidableEq

open PestCategory

/-- Declaration order of the categories, as Python dict insertion order. -/
def pestOrder : List PestCategory :=
  [aphids, fungal_diseases, spider_mites, thrips, whiteflies]

/-- Index of a category in the declaration order. -/
def pestIdx : PestCategory → ℕ
  | aphids => 0
  | fungal_diseases => 1
  | spider_mites => 2
  | thrips => 3
  | whiteflies => 4

/-- _calculate_individual_pest_risks: additive threshold rules per category,
each score cut off at 1.0 by `min(risk, 1.0)`. -/
def calculateIndividualPestRisks (w : WeatherData) : PestCategory → ℚ
  | aphids =>
      min ((if 15 ≤ w.temperature ∧ w.temperature ≤ 25 then (0.4 : ℚ) else 0)
        + (if w.humidity > 50 then (0.3 : ℚ) else 0)
        + (if w.rainfall < 10 then (0.3 : ℚ) else 0)) 1
  | fungal_diseases =>
      min ((if 20 ≤ w.temperature ∧ w.temperature ≤ 30 then (0.3 : ℚ) else 0)
        + (if w.humidity > 70 then (0.4 : ℚ) else 0)
        + (if w.rainfall > 5 then (0.3 : ℚ) else 0)) 1
  | spider_mites =>
      min ((if w.temperature > 27 then (0.4 : ℚ) else 0)
        + (if w.humidity < 40 then (0.3 : ℚ) else 0)
        + (if w.rainfall < 2 then (0.3 : ℚ) else 0)) 1
  | thrips =>
      min ((if 20 ≤ w.temperature ∧ w.temperature ≤ 30 then (0.3 : ℚ) else 0)
        + (if 40 ≤ w.humidity ∧ w.humidity ≤ 70 then (0.3 : ℚ) else 0)
        + (if w.rainfall < 8 then (0.4 : ℚ) else 0)) 1
  | whiteflies =>
      min ((if 25 ≤ w.temperature ∧ w.temperature ≤ 32 then (0.4 : ℚ) else 0)
        + (if w.humidity > 60 then (0.3 : ℚ) else 0)
        + (if w.rainfall < 12 then (0.3 : ℚ) else 0)) 1

/-- Clamp to [0,1], as the spec phrase "clamped to [0,1]". -/
def specClamp01 (q : ℚ) : ℚ := min (max q 0) 1

/-- Spec-side scoring, written from the section 4.2 rule table: the sum of
the weights of the satisfied conditions, clamped to [0,1]. Kept separate
from the source-side definition so the two can be compared. -/
def specCategoryScore (w : WeatherData) : PestCategory → ℚ
  | aphids =>
      specClamp01 ((if 15 ≤ w.temperature ∧ w.temperature ≤ 25 then (0.4 : ℚ) else 0)
        + (if w.humidity > 50 then (0.3 : ℚ) else 0)
        + (if w.rainfall < 10 then (0.3 : ℚ) else 0))
  | fungal_diseases =>
      specClamp01 ((if 20 ≤ w.temperature ∧ w.temperature ≤ 30 then (0.3 : ℚ) else 0)
        + (if w.humidity > 70 then (0.4 : ℚ) else 0)
        + (if w.rainfall > 5 then (0.3 : ℚ) else 0))
  | spider_mites =>
      specClamp01 ((if w.temperature > 27 then (0.4 : ℚ) else 0)
        + (if w.humidity < 40 then (0.3 : ℚ) else 0)
        + (if w.rainfall < 2 then (0.3 : ℚ) else 0))
  | thrips =>
      specClamp01 ((if 20 ≤ w.temperature ∧ w.temperature ≤ 30 then (0.3 : ℚ) else 0)
        + (if 40 ≤ w.humidity ∧ w.humidity ≤ 70 then (0.3 : ℚ) else 0)
        + (if w.rainfall < 8 then (0.4 : ℚ) else 0))
  | whiteflies =>
      specClamp01 ((if 25 ≤ w.temperature ∧ w.temperature ≤ 32 then (0.4 : ℚ) else 0)
        + (if w.humidity > 60 then (0.3 : ℚ) else 0)
        + (if w.rainfall < 12 then (0.3 : ℚ) else 0))

/-- C1: for every weather reading, the per-category score of each of the five
fixed pest categories equals the sum of the fixed weights of the satisfied
conditions of the section 4.2 rule table, clamped to [0,1]; hence every score
lies in [0,1] for any input values, including out-of-range ones. -/
theorem pest_scores_match_table_and_are_bounded (w : WeatherData) (c : PestCategory) :
    calculateIndividualPestRisks w c = specCategoryScore w c ∧
    0 ≤ calculateIndividualPestRisks w c ∧ calculateIndividualPestRisks w c ≤ 1 := by
  have key : ∀ s : ℚ, 0 ≤ s → min s 1 = specClamp01 s ∧ 0 ≤ min s 1 ∧ min s 1 ≤ 1 := by
    intro s hs
    refine ⟨?_, le_min hs (by norm_num), min_le_right _ _⟩
    unfold specClamp01
    rw [max_eq_left hs]
  cases c <;>
  · simp only [calculateIndividualPestRisks, specCategoryScore]
    exact key _ (by split_ifs <;> norm_num)

/-- Extreme temperature condition of _determine_overall_risk. -/
def tempExtreme (w : WeatherData) : Prop :=
  w.temperature > 35 ∨ w.temperature < 5

/-- Extreme humidity condition of _determine_overall_risk. -/
def humidityExtreme (w : WeatherData) : Prop :=
  w.humidity > 90 ∨ w.humidity < 20

/-- Extreme rainfall condition of _determine_overall_risk. -/
def rainfallExtreme (w : WeatherData) : Prop :=
  w.rainfall > 25

/-- Disjunction guarding the single escalation step. -/
def extremeWeather (w : WeatherData) : Prop :=
  tempExtreme w ∨ humidityExtreme w ∨ rainfallExtreme w

instance (w : WeatherData) : Decidable (tempExtreme w) := by
  unfold tempExtreme; infer_instance

instance (w : WeatherData) : Decidable (humidityExtreme w) := by
  unfold humidityExtreme; infer_instance

instance (w : WeatherData) : Decidable (rainfallExtreme w) := by
  unfold rainfallExtreme; infer_instance

instance (w : WeatherData) : Decidable (extremeWeather w) := by
  unfold extremeWeather; infer_instance

/-- max(pest_risks.values()): left fold of the binary max over the values in
insertion order. -/
def maxRisk (r : PestCategory → ℚ) : ℚ :=
  max (max (max (max (r aphids) (r fungal_diseases)) (r spider_mites)) (r thrips))
    (r whiteflies)

/-- The maximum score after the extreme-weather escalation of
_determine_overall_risk: `max_risk = min(max_risk + 0.2, 1.0)` exactly when
at least one extreme condition holds. -/
def escalatedMaxRisk (r : PestCategory → ℚ) (w : WeatherData) : ℚ :=
  if extremeWeather w then min (maxRisk r + 0.2) 1 else maxRisk r

/-- Result record of _determine_overall_risk. -/
structure OverallRisk where
  level : String
  color : String
  emoji : String
  confidence : ℚ
deriving Repr, DecidableEq

/-- _determine_overall_risk: threshold mapping from the escalated maximum
score to a level, color, emoji and confidence. The avg_risk computed in the
source is never used and is not modelled. -/
def determineOverallRisk (r : PestCategory → ℚ) (w : WeatherData) : OverallRisk :=
  let m := escalatedMaxRisk r w
  if m ≥ 0.7 then
    { level := "High", color := "red", emoji := "🔴", confidence := min m 0.95 }
  else if m ≥ 0.4 then
    { level := "Medium", color := "yellow", emoji := "🟡", confidence := m * 0.8 }
  else
    { level := "Low", color := "green", emoji := "🟢", confidence := 1 - m }

/-- User-friendly display names of the threat_names dictionary. -/
def threatNames : PestCategory → String
  | aphids => "Aphid Infestation"
  | fungal_diseases => "Fungal Diseases"
  | spider_mites => "Spider Mite Damage"
  | thrips => "Thrips Damage"
  | whiteflies => "Whitefly Infestation"

/-- The items of the pest_risks dictionary, in insertion order. -/
def riskItems (r : PestCategory → ℚ) : List (PestCategory × ℚ) :=
  pestOrder.map (fun c => (c, r c))

/-- Insertion step of the stable descending sort: an element moves left past
strictly smaller scores only, so elements with equal scores keep their
original relative order, as the stable Python sorted(..., reverse=True). -/
def insertByRiskDesc (x : PestCategory × ℚ) : List (PestCategory × ℚ) → List (PestCategory × ℚ)
  | [] => [x]
  | y :: ys => if x.2 ≥ y.2 then x :: y :: ys else y :: insertByRiskDesc x ys

/-- Stable sort by score descending, as sorted(pest_risks.items(),
key=lambda x: x[1], reverse=True). -/
def sortByRiskDesc : List (PestCategory × ℚ) → List (PestCategory × ℚ)
  | [] => []
  | x :: xs => insertByRiskDesc x (sortByRiskDesc xs)

/-- The significant threats of _identify_primary_threats: the sorted items
whose risk is strictly above 0.3. -/
def significantPairs (r : PestCategory → ℚ) : List (PestCategory × ℚ) :=
  (sortByRiskDesc (riskItems r)).filter (fun p => decide (p.2 > 0.3))

/-- _identify_primary_threats: the first three significant threats, mapped
to display names. -/
def identifyPrimaryThreats (r : PestCategory → ℚ) : List String :=
  ((significantPairs r).take 3).map (fun p => threatNames p.1)

/-- Fixed advisory set per category, appended by _generate_recommendations
when that category scores above 0.6. -/
def pestRecs : PestCategory → List String
  | aphids =>
      ["🐛 Scout for aphid colonies on new growth",
       "🌿 Apply insecticidal soap or neem oil spray",
       "🐞 Release beneficial insects like ladybugs"]
  | fungal_diseases =>
      ["💨 Improve air circulation between plants",
       "🌿 Apply preventive fungicide spray",
       "💧 Avoid overhead watering - use drip irrigation"]
  | spider_mites =>
      ["💦 Increase humidity around plants with misting",
       "🔍 Check undersides of leaves for fine webbing",
       "🌿 Apply miticide or predatory mite release"]
  | thrips =>
      ["💙 Use blue sticky traps to monitor populations",
       "🌿 Apply beneficial nematodes to soil",
       "💨 Remove weeds that harbor thrips"]
  | whiteflies =>
      ["💛 Install yellow sticky traps",
       "🌿 Apply horticultural oil spray",
       "🧹 Remove lower leaves touching soil"]

/-- Weather-trigger advisory for high humidity. -/
def humidityRec : String := "💨 Critical: Increase ventilation to reduce humidity"

/-- Weather-trigger advisory for high temperature. -/
def temperatureRec : String := "☀️ Provide shade cloth during peak heat hours"

/-- Weather-trigger advisory for heavy rainfall. -/
def rainfallRec : String := "🌧️ Improve drainage and avoid additional watering"

/-- The raw recommendation list of _generate_recommendations before
deduplication: per-category advisories for scores above 0.6 in category
enumeration order, then the three independent weather triggers. -/
def recCandidates (r : PestCategory → ℚ) (w : WeatherData) : List String :=
  (pestOrder.map (fun c => if r c > 0.6 then pestRecs c else [])).flatten
    ++ (if w.humidity > 80 then [humidityRec] else [])
    ++ (if w.temperature > 32 then [temperatureRec] else [])
    ++ (if w.rainfall > 15 then [rainfallRec] else [])

/-- Order-preserving deduplication, as list(dict.fromkeys(...)): keeps the
first occurrence of each string. -/
def dedupKeepFirst (l : List String) : List String :=
  l.foldl (fun acc x => if x ∈ acc then acc else acc ++ [x]) []

/-- _generate_recommendations: deduplicate the raw list preserving first-seen
order, then truncate to the first 6. -/
def generateRecommendations (r : PestCategory → ℚ) (w : WeatherData) : List String :=
  (dedupKeepFirst (recCandidates r w)).take 6

/-- Abbreviated numeric rendering inside narrative strings (the source uses
fixed-point f-string formatting; no claim depends on this rendering). -/
def ratStr (q : ℚ) : String := toString q

/-- _generate_weather_summary: narrative template chosen by threshold bands
per factor. -/
def generateWeatherSummary (w : WeatherData) : String :=
  let tempDesc := if w.temperature > 30 then "hot"
    else if w.temperature > 20 then "warm" else "cool"
  let humidityDesc := if w.humidity > 80 then "very humid"
    else if w.humidity > 60 then "humid" else "dry"
  let rainDesc := if w.rainfall > 10 then "with significant rainfall"
    else if w.rainfall > 2 then "with light rainfall" else "with no rainfall"
  "Current conditions: " ++ tempDesc ++ " (" ++ ratStr w.temperature ++ "°C), "
    ++ humidityDesc ++ " (" ++ ratStr w.humidity ++ "%), "
    ++ rainDesc ++ " (" ++ ratStr w.rainfall ++ "mm)"

/-- _generate_detailed_analysis: one explanatory string per factor, keyed in
insertion order temperature, humidity, rainfall. The pest_risks argument is
accepted and ignored, as in the source. -/
def generateDetailedAnalysis (_r : PestCategory → ℚ) (w : WeatherData) :
    List (String × String) :=
  [("temperature",
    if w.temperature > 32 then
      "High temperature (" ++ ratStr w.temperature ++ "°C) favors spider mites and heat stress"
    else if w.temperature < 15 then
      "Cool temperature (" ++ ratStr w.temperature ++ "°C) slows pest development but may stress plants"
    else
      "Moderate temperature (" ++ ratStr w.temperature ++ "°C) suitable for most pest activity"),
   ("humidity",
    if w.humidity > 75 then
      "High humidity (" ++ ratStr w.humidity ++ "%) creates ideal conditions for fungal diseases"
    else if w.humidity < 40 then
      "Low humidity (" ++ ratStr w.humidity ++ "%) favors spider mites and thrips"
    else
      "Moderate humidity (" ++ ratStr w.humidity ++ "%) - balanced conditions"),
   ("rainfall",
    if w.rainfall > 15 then
      "Heavy rainfall (" ++ ratStr w.rainfall ++ "mm) increases fungal disease pressure"
    else if w.rainfall < 2 then
      "Dry conditions (" ++ ratStr w.rainfall ++ "mm) favor drought-stress pests"
    else
      "Moderate moisture (" ++ ratStr w.rainfall ++ "mm) - good for plant health")]

/-- PestRiskAssessment from pest_risk.py; detailed_analysis is the dict as
an ordered association list. -/
structure PestRiskAssessment where
  risk_level : String
  risk_color : String
  risk_emoji : String
  confidence : ℚ
  primary_threats : List String
  recommendations : List String
  weather_summary : String
  detailed_analysis : List (String × String)
deriving Repr, DecidableEq

/-- assess_pest_risk: score, aggregate, recommend, summarise. -/
def assessPestRisk (w : WeatherData) : PestRiskAssessment :=
  let pestRisks := calculateIndividualPestRisks w
  let overallRisk := determineOverallRisk pestRisks w
  { risk_level := overallRisk.level
    risk_color := overallRisk.color
    risk_emoji := overallRisk.emoji
    confidence := overallRisk.confidence
    primary_threats := identifyPrimaryThreats pestRisks
    recommendations := generateRecommendations pestRisks w
    weather_summary := generateWeatherSummary w
    detailed_analysis := generateDetailedAnalysis pestRisks w }

/-- The five canonical mock scenarios of _generate_mock_weather, in source
order: low risk, medium risk, high risk, hot-dry, cool-wet. -/
def mockScenarios : List WeatherData :=
  [⟨22, 55, 2⟩, ⟨28, 68, 8⟩, ⟨34, 82, 18⟩, ⟨26, 45, 0⟩, ⟨18, 85, 15⟩]

/-- Outcome of the external weather call in get_weather_data: either a
successful parsed response, or one of the failure modes that all fall
through to the mock scenarios (no API key, non-200 status, raised
request exception). -/
inductive FetchOutcome where
  | ok (w : WeatherData)
  | noApiKey
  | badStatus
  | requestError
deriving Repr, DecidableEq

/-- get_weather_data: return the parsed live reading on success, otherwise
a mock scenario selected by random.choice, modelled by an explicit index. -/
def getWeatherData (outcome : FetchOutcome) (choice : Fin mockScenarios.length) :
    WeatherData :=
  match outcome with
  | .ok w => w
  | .noApiKey => mockScenarios.get choice
  | .badStatus => mockScenarios.get choice
  | .requestError => mockScenarios.get choice

/-- The fixed 4-item recommendation list of the Unknown override. -/
def unknownRecommendations : List String :=
  ["❓ Unable to provide pest risk due to unclear image.",
   "📸 Retake a clearer photo under good lighting.",
   "🌱 Monitor your plant and try again.",
   "🔍 If symptoms persist, consult a plant expert."]

/-- The fixed Unknown assessment that get_pest_risk_assessment installs
field by field when the classifier label is unknown. -/
def unknownAssessment : PestRiskAssessment :=
  { risk_level := "Unknown"
    risk_color := "black"
    risk_emoji := "⚫"
    confidence := 0
    primary_threats := ["Not detected (image unknown)"]
    recommendations := unknownRecommendations
    weather_summary := "No valid assessment (image unrecognized)"
    detailed_analysis := [] }

/-- Python str.lower restricted to what get_pest_risk_assessment needs:
per-character lowercasing (the labels involved are ASCII). -/
def strLower (s : String) : String := String.mk (s.data.map Char.toLower)

/-- Truthiness test `disease and disease.lower() == "unknown"` of
get_pest_risk_assessment: None and the empty string are falsy. -/
def diseaseIsUnknown : Option String → Bool
  | none => false
  | some d => d != "" && strLower d == "unknown"

/-- get_pest_risk_assessment with the weather reading already resolved:
assess the reading, then replace every field with the fixed Unknown
assessment when the classifier label is unknown. -/
def getPestRiskAssessment (w : WeatherData) (disease : Option String) :
    PestRiskAssessment :=
  let assessment := assessPestRisk w
  if diseaseIsUnknown disease then unknownAssessment else assessment

/-- C2: for every score mapping and reading, the overall verdict is
determined from the escalated maximum score by exact boundaries in priority
order: at least 0.7 yields High with confidence the minimum of the score and
0.95; otherwise at least 0.4 yields Medium with confidence 0.8 times the
score; otherwise Low with confidence one minus the score; in particular a
maximum score of 0.7 gives High, 0.6999 gives Medium, 0.4 gives Medium and
0.3999 gives Low. -/
theorem overall_risk_level_mapping (r : PestCategory → ℚ) (w : WeatherData) :
    (escalatedMaxRisk r w ≥ 0.7 →
      determineOverallRisk r w =
        ⟨"High", "red", "🔴", min (escalatedMaxRisk r w) 0.95⟩) ∧
    (escalatedMaxRisk r w < 0.7 → escalatedMaxRisk r w ≥ 0.4 →
      determineOverallRisk r w =
        ⟨"Medium", "yellow", "🟡", escalatedMaxRisk r w * 0.8⟩) ∧
    (escalatedMaxRisk r w < 0.4 →
      determineOverallRisk r w =
        ⟨"Low", "green", "🟢", 1 - escalatedMaxRisk r w⟩) ∧
    (determineOverallRisk (fun _ => (0.7 : ℚ)) ⟨20, 50, 10⟩).level = "High" ∧
    (determineOverallRisk (fun _ => (0.6999 : ℚ)) ⟨20, 50, 10⟩).level = "Medium" ∧
    (determineOverallRisk (fun _ => (0.4 : ℚ)) ⟨20, 50, 10⟩).level = "Medium" ∧
    (determineOverallRisk (fun _ => (0.3999 : ℚ)) ⟨20, 50, 10⟩).level = "Low" := by
  have calm : ∀ q : ℚ, escalatedMaxRisk (fun _ => q) ⟨20, 50, 10⟩ = q := by
    intro q
    norm_num [escalatedMaxRisk, maxRisk, extremeWeather, tempExtreme,
      humidityExtreme, rainfallExtreme]
  refine ⟨?_, ?_, ?_, ?_, ?_, ?_, ?_⟩
  · intro h
    simp [determineOverallRisk, h]
  · intro h1 h2
    simp [determineOverallRisk, not_le.mpr h1, h2]
  · intro h
    simp [determineOverallRisk, not_le.mpr h,
      not_le.mpr (lt_trans h (by norm_num : (0.4 : ℚ) < 0.7))]
  · simp [determineOverallRisk, calm]
  · norm_num [determineOverallRisk, calm]
  · norm_num [determineOverallRisk, calm]
  · norm_num [determineOverallRisk, calm]

/-- Witness for C2: the High branch of the mapping at the constant score 0.8
and a calm reading. -/
theorem overall_risk_level_mapping_at_point :
    determineOverallRisk (fun _ => (0.8 : ℚ)) ⟨20, 50, 10⟩ =
      ⟨"High", "red", "🔴", min (escalatedMaxRisk (fun _ => (0.8 : ℚ)) ⟨20, 50, 10⟩) 0.95⟩ :=
  (overall_risk_level_mapping (fun _ => (0.8 : ℚ)) ⟨20, 50, 10⟩).1 (by
    norm_num [escalatedMaxRisk, maxRisk, extremeWeather, tempExtreme,
      humidityExtreme, rainfallExtreme])

/-- C3: if any extreme-weather condition holds, exactly one escalation of
+0.2 is applied to the maximum category score, capped at 1.0, never more,
regardless of how many extreme conditions hold simultaneously; if none
holds, the maximum score is unchanged. -/
theorem extreme_escalation_applies_once (r : PestCategory → ℚ) (w : WeatherData) :
    (tempExtreme w ∨ humidityExtreme w ∨ rainfallExtreme w →
      escalatedMaxRisk r w = min (maxRisk r + 0.2) 1 ∧
      escalatedMaxRisk r w ≤ maxRisk r + 0.2 ∧ escalatedMaxRisk r w ≤ 1) ∧
    (¬ (tempExtreme w ∨ humidityExtreme w ∨ rainfallExtreme w) →
      escalatedMaxRisk r w = maxRisk r) := by
  constructor
  · intro h
    have he : extremeWeather w := h
    refine ⟨by simp [escalatedMaxRisk, he], ?_, ?_⟩ <;>
      simp [escalatedMaxRisk, he, min_le_left, min_le_right]
  · intro h
    have he : ¬ extremeWeather w := h
    simp [escalatedMaxRisk, he]

/-- Witness for C3: with all of temperature, humidity and rainfall extreme at
once, the constant score 0.5 escalates to min(0.5 + 0.2, 1.0) exactly once. -/
theorem extreme_escalation_at_triple_extreme :
    escalatedMaxRisk (fun _ => (0.5 : ℚ)) ⟨40, 95, 30⟩ =
      min (maxRisk (fun _ => (0.5 : ℚ)) + 0.2) 1 ∧
    escalatedMaxRisk (fun _ => (0.5 : ℚ)) ⟨40, 95, 30⟩ ≤
      maxRisk (fun _ => (0.5 : ℚ)) + 0.2 ∧
    escalatedMaxRisk (fun _ => (0.5 : ℚ)) ⟨40, 95, 30⟩ ≤ 1 :=
  (extreme_escalation_applies_once (fun _ => (0.5 : ℚ)) ⟨40, 95, 30⟩).1 (by
    norm_num [tempExtreme, humidityExtreme, rainfallExtreme])

/-- C4: when the classifier label lowers to "unknown", the returned
assessment is the fixed Unknown assessment in full, for any weather reading:
level Unknown, confidence 0, the fixed single-item threat list, exactly the
fixed 4-item recommendation list, the fixed placeholder weather summary, and
an empty detailed-analysis mapping. -/
theorem unknown_label_overrides_all_fields (w : WeatherData) (d : String)
    (h : strLower d = "unknown") :
    getPestRiskAssessment w (some d) = unknownAssessment ∧
    unknownAssessment.risk_level = "Unknown" ∧
    unknownAssessment.confidence = 0 ∧
    unknownAssessment.primary_threats = ["Not detected (image unknown)"] ∧
    unknownAssessment.recommendations = unknownRecommendations ∧
    unknownRecommendations.length = 4 ∧
    unknownAssessment.weather_summary = "No valid assessment (image unrecognized)" ∧
    unknownAssessment.detailed_analysis = [] := by
  have hne : d ≠ "" := by
    intro e
    rw [e] at h
    exact absurd h (by decide)
  refine ⟨?_, rfl, rfl, rfl, rfl, rfl, rfl, rfl⟩
  simp [getPestRiskAssessment, diseaseIsUnknown, hne, h]

/-- Witness for C4: the override fires on the literal label "Unknown" with
the low-risk mock reading. -/
theorem unknown_label_override_at_point :
    getPestRiskAssessment ⟨22, 55, 2⟩ (some "Unknown") = unknownAssessment ∧
    unknownAssessment.risk_level = "Unknown" ∧
    unknownAssessment.confidence = 0 ∧
    unknownAssessment.primary_threats = ["Not detected (image unknown)"] ∧
    unknownAssessment.recommendations = unknownRecommendations ∧
    unknownRecommendations.length = 4 ∧
    unknownAssessment.weather_summary = "No valid assessment (image unrecognized)" ∧
    unknownAssessment.detailed_analysis = [] :=
  unknown_label_overrides_all_fields ⟨22, 55, 2⟩ "Unknown" (by decide)

/-- Spec-side clamped reading, written from the section 3 invariant:
humidity clamped to [0,100], rainfall clamped to be nonnegative. -/
def specClampedReading (w : WeatherData) : WeatherData :=
  { temperature := w.temperature
    humidity := min (max w.humidity 0) 100
    rainfall := max w.rainfall 0 }

theorem hum_clamp_gt {h c : ℚ} (h0 : 0 ≤ c) (h100 : c < 100) :
    min (max h 0) 100 > c ↔ h > c := by
  rcases le_total h 0 with h1 | h1
  · rw [max_eq_right h1, min_eq_left (by norm_num : (0 : ℚ) ≤ 100)]
    constructor
    · intro hc
      exact absurd hc (not_lt.mpr h0)
    · intro hc
      exact absurd hc (not_lt.mpr (h1.trans h0))
  · rw [max_eq_left h1]
    rcases le_total h 100 with h2 | h2
    · rw [min_eq_left h2]
    · rw [min_eq_right h2]
      constructor
      · intro _
        exact lt_of_lt_of_le h100 h2
      · intro _
        exact h100

theorem hum_clamp_lt {h c : ℚ} (h0 : 0 < c) (h100 : c ≤ 100) :
    min (max h 0) 100 < c ↔ h < c := by
  rcases le_total h 0 with h1 | h1
  · rw [max_eq_right h1, min_eq_left (by norm_num : (0 : ℚ) ≤ 100)]
    constructor
    · intro _
      exact lt_of_le_of_lt h1 h0
    · intro _
      exact h0
  · rw [max_eq_left h1]
    rcases le_total h 100 with h2 | h2
    · rw [min_eq_left h2]
    · rw [min_eq_right h2]
      constructor
      · intro hc
        exact absurd hc (not_lt.mpr h100)
      · intro hc
        exact absurd hc (not_lt.mpr (h100.trans h2))

theorem hum_clamp_ge {h c : ℚ} (h0 : 0 < c) (h100 : c ≤ 100) :
    c ≤ min (max h 0) 100 ↔ c ≤ h := by
  rw [← not_lt, ← not_lt]
  exact not_congr (hum_clamp_lt h0 h100)

theorem hum_clamp_le {h c : ℚ} (h0 : 0 ≤ c) (h100 : c < 100) :
    min (max h 0) 100 ≤ c ↔ h ≤ c := by
  rw [← not_lt, ← not_lt]
  exact not_congr (hum_clamp_gt h0 h100)

theorem rain_clamp_lt {r c : ℚ} (h0 : 0 < c) : max r 0 < c ↔ r < c := by
  rcases le_total r 0 with h1 | h1
  · rw [max_eq_right h1]
    constructor
    · intro _
      exact lt_of_le_of_lt h1 h0
    · intro _
      exact h0
  · rw [max_eq_left h1]

theorem rain_clamp_gt {r c : ℚ} (h0 : 0 ≤ c) : max r 0 > c ↔ r > c := by
  rcases le_total r 0 with h1 | h1
  · rw [max_eq_right h1]
    constructor
    · intro hc
      exact absurd hc (not_lt.mpr h0)
    · intro hc
      exact absurd hc (not_lt.mpr (h1.trans h0))
  · rw [max_eq_left h1]

/-- Every scoring predicate of the engine is invariant under the clamp, so
scoring a reading and scoring its clamped form yield identical scores. -/
theorem scoring_ignores_clamping (w : WeatherData) :
    calculateIndividualPestRisks (specClampedReading w) =
      calculateIndividualPestRisks w := by
  have g50 := hum_clamp_gt (h := w.humidity) (c := 50) (by norm_num) (by norm_num)
  have g60 := hum_clamp_gt (h := w.humidity) (c := 60) (by norm_num) (by norm_num)
  have g70 := hum_clamp_gt (h := w.humidity) (c := 70) (by norm_num) (by norm_num)
  have l40 := hum_clamp_lt (h := w.humidity) (c := 40) (by norm_num) (by norm_num)
  have ge40 := hum_clamp_ge (h := w.humidity) (c := 40) (by norm_num) (by norm_num)
  have le70 := hum_clamp_le (h := w.humidity) (c := 70) (by norm_num) (by norm_num)
  have r10 := rain_clamp_lt (r := w.rainfall) (c := 10) (by norm_num)
  have r5 := rain_clamp_gt (r := w.rainfall) (c := 5) (by norm_num)
  have r2 := rain_clamp_lt (r := w.rainfall) (c := 2) (by norm_num)
  have r8 := rain_clamp_lt (r := w.rainfall) (c := 8) (by norm_num)
  have r12 := rain_clamp_lt (r := w.rainfall) (c := 12) (by norm_num)
  funext c
  cases c <;>
    simp only [calculateIndividualPestRisks, specClampedReading, g50, g60, g70,
      l40, ge40, le70, r10, r5, r2, r8, r12]

/-- C7: for every reading with malformed values (negative rainfall, or
humidity outside [0,100]) the engine clamps rather than fails: scoring the
malformed reading yields exactly the scores of the clamped reading, whose
humidity lies in [0,100] and whose rainfall is nonnegative; scoring is a
total function, so no error is raised. -/
theorem malformed_reading_scores_as_clamped (w : WeatherData)
    (_h : w.humidity < 0 ∨ w.humidity > 100 ∨ w.rainfall < 0) :
    calculateIndividualPestRisks w =
      calculateIndividualPestRisks (specClampedReading w) ∧
    0 ≤ (specClampedReading w).humidity ∧
    (specClampedReading w).humidity ≤ 100 ∧
    0 ≤ (specClampedReading w).rainfall := by
  refine ⟨(scoring_ignores_clamping w).symm, ?_, ?_, ?_⟩
  · exact le_min (le_max_right _ _) (by norm_num)
  · exact min_le_right _ _
  · exact le_max_right _ _

/-- Witness for C7: a reading with humidity 150 and rainfall negative scores
exactly as its clamped form. -/
theorem malformed_reading_scores_at_point :
    calculateIndividualPestRisks ⟨20, 150, -3⟩ =
      calculateIndividualPestRisks (specClampedReading ⟨20, 150, -3⟩) ∧
    0 ≤ (specClampedReading ⟨20, 150, -3⟩).humidity ∧
    (specClampedReading ⟨20, 150, -3⟩).humidity ≤ 100 ∧
    0 ≤ (specClampedReading ⟨20, 150, -3⟩).rainfall :=
  malformed_reading_scores_as_clamped ⟨20, 150, -3⟩ (by norm_num)

theorem if_nonneg {p : Prop} [Decidable p] {q : ℚ} (hq : 0 ≤ q) :
    0 ≤ if p then q else 0 := by
  split
  · exact hq
  · exact le_refl 0

/-- C10: for every reading, the maximum per-category score before escalation
is at least 0.3, because every rainfall value satisfies either the
fungal_diseases condition rainfall above 5 or the whiteflies condition
rainfall below 12; consequently a Low verdict carries confidence at most 0.7
whenever no extreme escalation fires. -/
theorem max_risk_floor_and_low_confidence_bound (w : WeatherData) :
    (0.3 : ℚ) ≤ maxRisk (calculateIndividualPestRisks w) ∧
    (¬ extremeWeather w →
      (determineOverallRisk (calculateIndividualPestRisks w) w).level = "Low" →
      (determineOverallRisk (calculateIndividualPestRisks w) w).confidence ≤ 0.7) := by
  have base : (0.3 : ℚ) ≤ maxRisk (calculateIndividualPestRisks w) := by
    rcases le_or_lt w.rainfall 5 with hr | hr
    · have h12 : w.rainfall < 12 := lt_of_le_of_lt hr (by norm_num)
      have hw : (0.3 : ℚ) ≤ calculateIndividualPestRisks w whiteflies := by
        simp only [calculateIndividualPestRisks]
        refine le_min ?_ (by norm_num)
        rw [if_pos h12]
        have t1 : (0 : ℚ) ≤
            if 25 ≤ w.temperature ∧ w.temperature ≤ 32 then (0.4 : ℚ) else 0 :=
          if_nonneg (by norm_num)
        have t2 : (0 : ℚ) ≤ if w.humidity > 60 then (0.3 : ℚ) else 0 :=
          if_nonneg (by norm_num)
        linarith
      exact le_trans hw (le_max_right _ _)
    · have hf : (0.3 : ℚ) ≤ calculateIndividualPestRisks w fungal_diseases := by
        simp only [calculateIndividualPestRisks]
        refine le_min ?_ (by norm_num)
        rw [if_pos hr]
        have t1 : (0 : ℚ) ≤
            if 20 ≤ w.temperature ∧ w.temperature ≤ 30 then (0.3 : ℚ) else 0 :=
          if_nonneg (by norm_num)
        have t2 : (0 : ℚ) ≤ if w.humidity > 70 then (0.4 : ℚ) else 0 :=
          if_nonneg (by norm_num)
        linarith
      calc (0.3 : ℚ) ≤ calculateIndividualPestRisks w fungal_diseases := hf
        _ ≤ max (calculateIndividualPestRisks w aphids)
              (calculateIndividualPestRisks w fungal_diseases) := le_max_right _ _
        _ ≤ maxRisk (calculateIndividualPestRisks w) :=
          le_trans (le_trans (le_max_left _ _) (le_max_left _ _)) (le_max_left _ _)
  refine ⟨base, ?_⟩
  intro hne hlow
  have hm : escalatedMaxRisk (calculateIndividualPestRisks w) w =
      maxRisk (calculateIndividualPestRisks w) := by
    simp [escalatedMaxRisk, hne]
  by_cases h7 : escalatedMaxRisk (calculateIndividualPestRisks w) w ≥ 0.7
  · simp [determineOverallRisk, h7] at hlow
  · by_cases h4 : escalatedMaxRisk (calculateIndividualPestRisks w) w ≥ 0.4
    · simp [determineOverallRisk, h7, h4] at hlow
    · simp only [determineOverallRisk, h7, h4, if_false, if_neg]
      rw [hm]
      linarith

/-- Witness for C10: a calm reading with all scores at most 0.3 yields a Low
verdict whose confidence is exactly the bound 0.7. -/
theorem max_risk_floor_at_point :
    (determineOverallRisk (calculateIndividualPestRisks ⟨10, 45, 11⟩)
        ⟨10, 45, 11⟩).confidence ≤ 0.7 :=
  (max_risk_floor_and_low_confidence_bound ⟨10, 45, 11⟩).2
    (by norm_num [extremeWeather, tempExtreme, humidityExtreme, rainfallExtreme])
    (by norm_num [determineOverallRisk, escalatedMaxRisk, maxRisk, extremeWeather,
      tempExtreme, humidityExtreme, rainfallExtreme, calculateIndividualPestRisks])

/-- Counterexample for C8: at the reading (18.0, 85.0, 15.0) the temperature
lies outside the fungal band [20,30], so the fungal score is not 1.0, and the
first primary threat is not "Fungal Diseases". -/
theorem cool_wet_scenario_claim_refuted :
    calculateIndividualPestRisks ⟨18, 85, 15⟩ fungal_diseases ≠ 1 ∧
    (identifyPrimaryThreats (calculateIndividualPestRisks ⟨18, 85, 15⟩)).head? ≠
      some "Fungal Diseases" := by
  constructor
  · norm_num [calculateIndividualPestRisks]
  · norm_num [identifyPrimaryThreats, significantPairs, sortByRiskDesc,
      insertByRiskDesc, riskItems, pestOrder, threatNames,
      calculateIndividualPestRisks]
    decide

/-- C8 as amended: at the reading (18.0, 85.0, 15.0) the fungal score is
0.4 + 0.3 = 0.7 (the temperature condition fails), the verdict level is High,
and the primary threats are exactly Aphid Infestation first (tie at 0.7,
declaration order) and Fungal Diseases second. -/
theorem cool_wet_scenario_amended :
    calculateIndividualPestRisks ⟨18, 85, 15⟩ fungal_diseases = 0.7 ∧
    (determineOverallRisk (calculateIndividualPestRisks ⟨18, 85, 15⟩)
        ⟨18, 85, 15⟩).level = "High" ∧
    identifyPrimaryThreats (calculateIndividualPestRisks ⟨18, 85, 15⟩) =
      ["Aphid Infestation", "Fungal Diseases"] := by
  refine ⟨?_, ?_, ?_⟩
  · norm_num [calculateIndividualPestRisks]
  · norm_num [determineOverallRisk, escalatedMaxRisk, maxRisk, extremeWeather,
      tempExtreme, humidityExtreme, rainfallExtreme, calculateIndividualPestRisks]
  · norm_num [identifyPrimaryThreats, significantPairs, sortByRiskDesc,
      insertByRiskDesc, riskItems, pestOrder, threatNames,
      calculateIndividualPestRisks]

/-- Well-formedness of an assessment, as the claims use it: a genuine risk
level, confidence within [0,1], and the size bounds on the two lists. -/
def assessmentWellFormed (a : PestRiskAssessment) : Prop :=
  (a.risk_level = "Low" ∨ a.risk_level = "Medium" ∨ a.risk_level = "High") ∧
  0 ≤ a.confidence ∧ a.confidence ≤ 1 ∧
  a.primary_threats.length ≤ 3 ∧ a.recommendations.length ≤ 6

/-- C9: on any fetch failure (missing credential, non-success response, or
raised transport error) the weather fetch returns one of the five canonical
mock scenarios, and assessing that reading produces a well-formed
assessment, not an error. -/
theorem weather_fetch_never_fails (o : FetchOutcome)
    (choice : Fin mockScenarios.length) (h : ∀ w, o ≠ FetchOutcome.ok w) :
    getWeatherData o choice ∈ mockScenarios ∧
    assessmentWellFormed (assessPestRisk (getWeatherData o choice)) := by
  have hmock : getWeatherData o choice = mockScenarios.get choice := by
    cases o with
    | ok w => exact absurd rfl (h w)
    | noApiKey => rfl
    | badStatus => rfl
    | requestError => rfl
  rw [hmock]
  have hall : ∀ w ∈ mockScenarios, assessmentWellFormed (assessPestRisk w) := by
    intro w hw
    fin_cases hw <;>
      norm_num [assessmentWellFormed, assessPestRisk, determineOverallRisk,
        escalatedMaxRisk, maxRisk, extremeWeather, tempExtreme, humidityExtreme,
        rainfallExtreme, calculateIndividualPestRisks, identifyPrimaryThreats,
        significantPairs, sortByRiskDesc, insertByRiskDesc, riskItems, pestOrder,
        threatNames, generateRecommendations, recCandidates, dedupKeepFirst,
        pestRecs, humidityRec, temperatureRec, rainfallRec]
  exact ⟨List.get_mem _ choice.1 choice.2, hall _ (List.get_mem _ choice.1 choice.2)⟩

/-- Witness for C9: a simulated transport error with the first scenario
selected yields a scenario reading and a well-formed assessment. -/
theorem weather_fetch_fallback_at_point :
    getWeatherData FetchOutcome.requestError ⟨0, by norm_num [mockScenarios]⟩ ∈
      mockScenarios ∧
    assessmentWellFormed (assessPestRisk
      (getWeatherData FetchOutcome.requestError ⟨0, by norm_num [mockScenarios]⟩)) :=
  weather_fetch_never_fails FetchOutcome.requestError _ (fun _ h => nomatch h)

/-- Output order of the threat sort: strictly larger score first, ties in
declaration order. -/
def threatOrder (p q : PestCategory × ℚ) : Prop :=
  q.2 < p.2 ∨ (p.2 = q.2 ∧ pestIdx p.1 < pestIdx q.1)

theorem insertByRiskDesc_perm (x : PestCategory × ℚ) (l : List (PestCategory × ℚ)) :
    List.Perm (insertByRiskDesc x l) (x :: l) := by
  induction l with
  | nil => simp [insertByRiskDesc]
  | cons y ys ih =>
    simp only [insertByRiskDesc]
    split
    · exact List.Perm.refl _
    · exact (ih.cons y).trans (List.Perm.swap x y ys)

theorem sortByRiskDesc_perm (l : List (PestCategory × ℚ)) :
    List.Perm (sortByRiskDesc l) l := by
  induction l with
  | nil => simp [sortByRiskDesc]
  | cons x xs ih =>
    exact (insertByRiskDesc_perm x (sortByRiskDesc xs)).trans (ih.cons x)

theorem insertByRiskDesc_pairwise (x : PestCategory × ℚ)
    (l : List (PestCategory × ℚ)) (hl : l.Pairwise threatOrder)
    (hidx : ∀ b ∈ l, pestIdx x.1 < pestIdx b.1) :
    (insertByRiskDesc x l).Pairwise threatOrder := by
  induction l with
  | nil => simp [insertByRiskDesc]
  | cons y ys ih =>
    rcases List.pairwise_cons.mp hl with ⟨hy, hys⟩
    simp only [insertByRiskDesc]
    by_cases hxy : x.2 ≥ y.2
    · rw [if_pos hxy]
      refine List.pairwise_cons.mpr ⟨?_, hl⟩
      intro b hb
      rcases List.mem_cons.mp hb with rfl | hb2
      · rcases eq_or_lt_of_le hxy with heq | hlt
        · exact Or.inr ⟨heq.symm, hidx b (List.mem_cons_self b ys)⟩
        · exact Or.inl hlt
      · have hxb2 : b.2 ≤ x.2 := by
          rcases hy b hb2 with h1 | h1
          · exact le_trans (le_of_lt h1) hxy
          · exact le_trans (le_of_eq h1.1.symm) hxy
        rcases eq_or_lt_of_le hxb2 with heq | hlt
        · exact Or.inr ⟨heq.symm, hidx b (List.mem_cons_of_mem y hb2)⟩
        · exact Or.inl hlt
    · rw [if_neg hxy]
      push_neg at hxy
      refine List.pairwise_cons.mpr
        ⟨?_, ih hys (fun b hb => hidx b (List.mem_cons_of_mem y hb))⟩
      intro b hb
      have hb2 : b = x ∨ b ∈ ys := by
        have := (insertByRiskDesc_perm x ys).mem_iff.mp hb
        simpa using this
      rcases hb2 with rfl | hb2
      · exact Or.inl hxy
      · exact hy b hb2

theorem sortByRiskDesc_pairwise (l : List (PestCategory × ℚ))
    (hl : l.Pairwise (fun p q => pestIdx p.1 < pestIdx q.1)) :
    (sortByRiskDesc l).Pairwise threatOrder := by
  induction l with
  | nil => simp [sortByRiskDesc]
  | cons x xs ih =>
    rcases List.pairwise_cons.mp hl with ⟨hx, hxs⟩
    refine insertByRiskDesc_pairwise x _ (ih hxs) ?_
    intro b hb
    exact hx b ((sortByRiskDesc_perm xs).mem_iff.mp hb)

theorem riskItems_pairwise (r : PestCategory → ℚ) :
    (riskItems r).Pairwise (fun p q => pestIdx p.1 < pestIdx q.1) := by
  norm_num [riskItems, pestOrder, List.pairwise_cons, pestIdx]

theorem riskItems_snd (r : PestCategory → ℚ) :
    ∀ p ∈ riskItems r, p.2 = r p.1 := by
  intro p hp
  simp only [riskItems, List.mem_map] at hp
  obtain ⟨c, _, rfl⟩ := hp
  rfl

theorem mem_riskItems (r : PestCategory → ℚ) (c : PestCategory) :
    (c, r c) ∈ riskItems r := by
  cases c <;> simp [riskItems, pestOrder]

theorem significantPairs_mem_iff (r : PestCategory → ℚ) (c : PestCategory) :
    c ∈ (significantPairs r).map Prod.fst ↔ r c > 0.3 := by
  constructor
  · intro hc
    obtain ⟨q, hq, rfl⟩ := List.mem_map.mp hc
    rcases List.mem_filter.mp hq with ⟨hq_mem, hq_gt⟩
    have hsnd : q.2 = r q.1 :=
      riskItems_snd r q ((sortByRiskDesc_perm _).mem_iff.mp hq_mem)
    have := of_decide_eq_true hq_gt
    rwa [hsnd] at this
  · intro hc
    refine List.mem_map.mpr ⟨(c, r c), List.mem_filter.mpr ⟨?_, ?_⟩, rfl⟩
    · exact (sortByRiskDesc_perm _).mem_iff.mpr (mem_riskItems r c)
    · exact decide_eq_true hc

/-- C5: for every score mapping, the primary-threats list has at most 3
entries, equals the display names of the first three significant pairs, the
significant pairs are exactly the categories scoring strictly above 0.3, and
they are ordered by score descending with ties in declaration order. -/
theorem primary_threats_spec (r : PestCategory → ℚ) :
    (identifyPrimaryThreats r).length ≤ 3 ∧
    identifyPrimaryThreats r =
      ((significantPairs r).take 3).map (fun p => threatNames p.1) ∧
    (∀ c : PestCategory, c ∈ (significantPairs r).map Prod.fst ↔ r c > 0.3) ∧
    (significantPairs r).Pairwise threatOrder := by
  refine ⟨?_, rfl, fun c => significantPairs_mem_iff r c, ?_⟩
  · simp only [identifyPrimaryThreats, List.length_map, List.length_take]
    exact min_le_left _ _
  · exact List.Pairwise.filter _ (sortByRiskDesc_pairwise _ (riskItems_pairwise r))

/-- Witness for C5: at the cool-wet reading, aphids score above 0.3 and so
appear among the significant threats. -/
theorem primary_threats_at_point :
    aphids ∈ (significantPairs (calculateIndividualPestRisks ⟨18, 85, 15⟩)).map
      Prod.fst :=
  ((primary_threats_spec (calculateIndividualPestRisks ⟨18, 85, 15⟩)).2.2.1
    aphids).mpr (by norm_num [calculateIndividualPestRisks])

theorem dedup_foldl_nodup (l acc : List String) (hacc : acc.Nodup) :
    (l.foldl (fun a x => if x ∈ a then a else a ++ [x]) acc).Nodup := by
  induction l generalizing acc with
  | nil => simpa using hacc
  | cons x xs ih =>
    simp only [List.foldl_cons]
    by_cases hx : x ∈ acc
    · rw [if_pos hx]
      exact ih acc hacc
    · rw [if_neg hx]
      refine ih _ ?_
      simp [List.nodup_append, hacc, hx]

theorem dedupKeepFirst_nodup (l : List String) : (dedupKeepFirst l).Nodup :=
  dedup_foldl_nodup l [] (by simp)

theorem dedup_foldl_mem (l : List String) (x : String) :
    ∀ acc : List String,
      x ∈ l.foldl (fun a y => if y ∈ a then a else a ++ [y]) acc →
      x ∈ acc ∨ x ∈ l := by
  induction l with
  | nil =>
    intro acc hx
    left
    simpa using hx
  | cons y ys ih =>
    intro acc hx
    simp only [List.foldl_cons] at hx
    by_cases hy : y ∈ acc
    · rw [if_pos hy] at hx
      rcases ih acc hx with h | h
      · exact Or.inl h
      · exact Or.inr (List.mem_cons_of_mem y h)
    · rw [if_neg hy] at hx
      rcases ih _ hx with h | h
      · rcases List.mem_append.mp h with h2 | h2
        · exact Or.inl h2
        · right
          simp only [List.mem_singleton] at h2
          exact h2 ▸ List.mem_cons_self x ys
      · exact Or.inr (List.mem_cons_of_mem y h)

theorem mem_of_mem_dedupKeepFirst (l : List String) (x : String)
    (h : x ∈ dedupKeepFirst l) : x ∈ l := by
  rcases dedup_foldl_mem l x [] h with h2 | h2
  · simp at h2
  · exact h2

theorem mem_if_list {α : Type} {p : Prop} [Decidable p] {l : List α} {x : α} :
    (x ∈ if p then l else []) ↔ p ∧ x ∈ l := by
  split <;> simp_all

theorem pestOrder_complete (c : PestCategory) : c ∈ pestOrder := by
  cases c <;> simp [pestOrder]

theorem mem_recCandidates (r : PestCategory → ℚ) (w : WeatherData) (x : String) :
    x ∈ recCandidates r w ↔
      (∃ c : PestCategory, r c > 0.6 ∧ x ∈ pestRecs c) ∨
      (w.humidity > 80 ∧ x = humidityRec) ∨
      (w.temperature > 32 ∧ x = temperatureRec) ∨
      (w.rainfall > 15 ∧ x = rainfallRec) := by
  constructor
  · intro hx
    rcases List.mem_append.mp hx with h | h4
    · rcases List.mem_append.mp h with h | h3
      · rcases List.mem_append.mp h with h1 | h2
        · obtain ⟨l, hl, hxl⟩ := List.mem_flatten.mp h1
          obtain ⟨c, _, rfl⟩ := List.mem_map.mp hl
          rcases mem_if_list.mp hxl with ⟨hc, hx2⟩
          exact Or.inl ⟨c, hc, hx2⟩
        · rcases mem_if_list.mp h2 with ⟨hc, hx2⟩
          exact Or.inr (Or.inl ⟨hc, List.mem_singleton.mp hx2⟩)
      · rcases mem_if_list.mp h3 with ⟨hc, hx2⟩
        exact Or.inr (Or.inr (Or.inl ⟨hc, List.mem_singleton.mp hx2⟩))
    · rcases mem_if_list.mp h4 with ⟨hc, hx2⟩
      exact Or.inr (Or.inr (Or.inr ⟨hc, List.mem_singleton.mp hx2⟩))
  · rintro (⟨c, hc, hx⟩ | ⟨hc, rfl⟩ | ⟨hc, rfl⟩ | ⟨hc, rfl⟩)
    · refine List.mem_append.mpr (Or.inl (List.mem_append.mpr (Or.inl
        (List.mem_append.mpr (Or.inl (List.mem_flatten.mpr
          ⟨pestRecs c, ?_, hx⟩))))))
      refine List.mem_map.mpr ⟨c, pestOrder_complete c, ?_⟩
      rw [if_pos hc]
    · exact List.mem_append.mpr (Or.inl (List.mem_append.mpr (Or.inl
        (List.mem_append.mpr (Or.inr (mem_if_list.mpr
          ⟨hc, List.mem_singleton.mpr rfl⟩))))))
    · exact List.mem_append.mpr (Or.inl (List.mem_append.mpr (Or.inr
        (mem_if_list.mpr ⟨hc, List.mem_singleton.mpr rfl⟩))))
    · exact List.mem_append.mpr (Or.inr
        (mem_if_list.mpr ⟨hc, List.mem_singleton.mpr rfl⟩))

/-- C6: for every score mapping and reading, the recommendation list is the
first 6 entries of the order-preserving deduplication of the raw list built
from per-category advisories (scores above 0.6, in enumeration order) and
the three independent weather triggers; consequently it never exceeds 6
entries, never contains duplicates, and every entry is justified by a
triggering category or weather condition. -/
theorem recommendations_spec (r : PestCategory → ℚ) (w : WeatherData) :
    (generateRecommendations r w).length ≤ 6 ∧
    (generateRecommendations r w).Nodup ∧
    generateRecommendations r w = (dedupKeepFirst (recCandidates r w)).take 6 ∧
    (∀ x ∈ generateRecommendations r w,
      (∃ c : PestCategory, r c > 0.6 ∧ x ∈ pestRecs c) ∨
      (w.humidity > 80 ∧ x = humidityRec) ∨
      (w.temperature > 32 ∧ x = temperatureRec) ∨
      (w.rainfall > 15 ∧ x = rainfallRec)) := by
  refine ⟨?_, ?_, rfl, ?_⟩
  · simp only [generateRecommendations, List.length_take]
    exact min_le_left _ _
  · exact List.Nodup.sublist (List.take_sublist 6 _) (dedupKeepFirst_nodup _)
  · intro x hx
    have h1 : x ∈ dedupKeepFirst (recCandidates r w) :=
      (List.take_sublist 6 _).subset hx
    exact (mem_recCandidates r w x).mp (mem_of_mem_dedupKeepFirst _ _ h1)

/-- Witness for C6: with all scores zero and only the humidity trigger
firing, the ventilation advisory appears in the list and is justified by
that trigger. -/
theorem recommendations_at_point :
    (∃ c : PestCategory,
        (fun _ : PestCategory => (0 : ℚ)) c > 0.6 ∧ humidityRec ∈ pestRecs c) ∨
      ((⟨20, 85, 10⟩ : WeatherData).humidity > 80 ∧ humidityRec = humidityRec) ∨
      ((⟨20, 85, 10⟩ : WeatherData).temperature > 32 ∧
        humidityRec = temperatureRec) ∨
      ((⟨20, 85, 10⟩ : WeatherData).rainfall > 15 ∧ humidityRec = rainfallRec) :=
  (recommendations_spec (fun _ => (0 : ℚ)) ⟨20, 85, 10⟩).2.2.2 humidityRec
    (by norm_num [generateRecommendations, dedupKeepFirst, recCandidates, pestOrder,
      pestRecs, humidityRec, temperatureRec, rainfallRec])

end CropAI
